import Mathlib

/-!
Verification of the SWE-bench (seal-research fork) isolated validation
pipeline against its design specification.

The Python sources embedded here are:
  * `swebench/collect/maven_enhanced.py` (full-clone validation pipeline),
  * `swebench/collect/maven_enhanced_fast.py` (worktree validation pipeline),
  * `swebench/collect/validate_maven_builds.py` and
    `swebench/collect/test_build.py` (earlier command-runner variants),
  * `swebench/harness/apptainer_build.py` (sandbox provisioning).

External command execution is modelled by an oracle describing the outcome of
each `subprocess.run` invocation; Python string operations used by the code
(`splitlines`, `split(sep)`, `replace`, `os.path.dirname`, slicing) are
implemented faithfully on `List Char` so everything evaluates by `decide`.
-/

set_option autoImplicit false

namespace SWEBench

/-! ## Python string primitives (faithful `List Char` implementations) -/

/-- Python slicing `s[:n]` (by code points, like Python's `str`). -/
def strSlice (n : Nat) (s : String) : String := ⟨s.data.take n⟩

/-- Characters that `str.splitlines` treats as line boundaries. -/
def isLineBreakChar (c : Char) : Bool :=
  c = '\n' || c = '\r' || c = '\x0b' || c = '\x0c' ||
  c = '\x1c' || c = '\x1d' || c = '\x1e' || c = '\x85' ||
  c = ' ' || c = ' '

/-- Auxiliary for `pySplitlines`: `acc` is the current line, reversed. -/
def splitlinesAux : List Char → List Char → List (List Char)
  | [], acc => if acc = [] then [] else [acc.reverse]
  | '\r' :: '\n' :: rest, acc => acc.reverse :: splitlinesAux rest []
  | c :: rest, acc =>
    if isLineBreakChar c then acc.reverse :: splitlinesAux rest []
    else splitlinesAux rest (c :: acc)

/-- Python `str.splitlines()`: splits at line boundaries, no trailing empty
line for a trailing terminator. -/
def pySplitlines (s : String) : List String :=
  (splitlinesAux s.data []).map String.mk

/-- Auxiliary for `chSplit`, structural on a fuel argument (the fuel is the
length of the list, which bounds the number of steps). -/
def chSplitFuel (sep : List Char) : Nat → List Char → List (List Char)
  | 0, l => [l]
  | _, [] => [[]]
  | fuel + 1, c :: rest =>
    if sep.isPrefixOf (c :: rest) then
      [] :: chSplitFuel sep fuel (rest.drop (sep.length - 1))
    else
      match chSplitFuel sep fuel rest with
      | [] => [[c]]
      | h :: t => (c :: h) :: t

/-- Python `str.split(sep)` for a non-empty separator: splits at every
non-overlapping occurrence, keeping empty parts. -/
def pySplit (sep : String) (s : String) : List String :=
  (chSplitFuel sep.data s.data.length s.data).map String.mk

/-- Auxiliary for `pyReplaceDelete`, structural on a fuel argument. -/
def replaceDeleteFuel (pat : List Char) : Nat → List Char → List Char
  | 0, l => l
  | _, [] => []
  | fuel + 1, c :: rest =>
    if pat.isPrefixOf (c :: rest) then
      replaceDeleteFuel pat fuel (rest.drop (pat.length - 1))
    else
      c :: replaceDeleteFuel pat fuel rest

/-- Python `s.replace(pat, "")` for a non-empty pattern: removes every
non-overlapping occurrence, scanning left to right. -/
def pyReplaceDelete (pat : String) (s : String) : String :=
  ⟨replaceDeleteFuel pat.data s.data.length s.data⟩

/-- Index of the last `'/'` in the list, if any (Python `str.rfind('/')`). -/
def lastSlashIdx (l : List Char) : Option Nat :=
  match l.reverse.findIdx? (fun c => c = '/') with
  | none => none
  | some j => some (l.length - 1 - j)

/-- Python `os.path.dirname` (posixpath): everything before the final slash,
with trailing slashes stripped unless the head is all slashes. -/
def pyDirname (s : String) : String :=
  let l := s.data
  let i := match lastSlashIdx l with
    | none => 0
    | some k => k + 1
  let head := l.take i
  if head ≠ [] ∧ head.any (fun c => c ≠ '/') then
    ⟨(head.reverse.dropWhile (fun c => c = '/')).reverse⟩
  else
    ⟨head⟩

/-- Python `str.startswith`. -/
def pyStartsWith (pre s : String) : Bool := pre.data.isPrefixOf s.data

/-- Python truthiness of an optional string (`None` and `""` are falsy):
models `if not x` / `if "k" in d and d["k"]` tests on string fields. -/
def optStrTruthy : Option String → Bool
  | none => false
  | some s => !s.data.isEmpty

/-! ## Command Runner (`maven_enhanced.py` / `maven_enhanced_fast.py`)

`subprocess.run(..., stdout=PIPE, stderr=STDOUT, timeout=...)` either
completes with an exit code and a combined output stream, or the timeout
fires (`subprocess.TimeoutExpired`).  The combined output is represented
already decoded, since these runners decode with `errors="replace"`, which
is total.  -/

/-- Outcome of one external command invocation. -/
inductive CmdOutcome where
  /-- The process exited with `returncode`, producing combined output
  `stdout` (shown here after the total `decode(errors="replace")`). -/
  | completed (returncode : Int) (stdout : String)
  /-- The timeout expired (`subprocess.TimeoutExpired` was raised and
  caught). -/
  | timedOut
  deriving DecidableEq

namespace MavenEnhanced

/-- Constant `MAX_LOG_SIZE` of `maven_enhanced.py`. -/
def MAX_LOG_SIZE : Nat := 10000

/-- Function `run_cmd` of `maven_enhanced.py` (named `runCmd` here because Lean
reserves the source spelling): returns `(returncode == 0, decoded output)`;
on `TimeoutExpired` returns `(False, " Timeout")`.  Total: it never raises
for a failing command. -/
def runCmd : CmdOutcome → Bool × String
  | .completed rc out => (rc == 0, out)
  | .timedOut => (false, " Timeout")

/-- The truncation step of `extract_submodule_from_patch` (lines 42-47 of
`maven_enhanced.py`): the `'/'`-joined segments before the first `"src"`
segment, or `os.path.dirname` of the whole path when no `"src"` segment
occurs. -/
def truncOrDirname (path : String) : String :=
  let segs := pySplit "/" path
  if "src" ∈ segs then
    String.intercalate "/" (segs.take (segs.findIdx (fun t => t = "src")))
  else
    pyDirname path

/-- The guard of the loop body of `extract_submodule_from_patch`: a line
contributes only when it starts with `"diff --git"` and splits (on single
spaces) into more than two parts, in which case `parts[2]` is taken. -/
def rawDiffToken (line : String) : Option String :=
  if pyStartsWith "diff --git" line then
    let parts := pySplit " " line
    if parts.length > 2 then some (parts.getD 2 "") else none
  else none

/-- Per-line body of `maven_enhanced.extract_submodule_from_patch`: the
token `parts[2]` has every occurrence of the substring `"a/"` removed
(`path.replace("a/", "")` — not only the leading prefix), and the result
is truncated by `truncOrDirname`. -/
def extractFromLine (line : String) : Option String :=
  if pyStartsWith "diff --git" line then
    let parts := pySplit " " line
    if parts.length > 2 then
      some (truncOrDirname (pyReplaceDelete "a/" (parts.getD 2 "")))
    else
      none
  else
    none

/-- Function `extract_submodule_from_patch` of `maven_enhanced.py`: first line of the patch
that yields a value (the Python loop `return`s on the first such line and
falls through to `return None`). -/
def extract_submodule_from_patch (patch_text : String) : Option String :=
  (pySplitlines patch_text).findSome? extractFromLine

/-- Removal of the diff-header prefix `"a/"` alone, as the specification
reads the token: the changed file's path is the header token with that
leading marker dropped. -/
def stripLeadingASlash (tok : String) : String :=
  if pyStartsWith "a/" tok then ⟨tok.data.drop 2⟩ else tok

/-- The build-target resolver as claim C6 words it: the path of the first
changed file of the patch (the third token of the first usable diff
header, with its leading `"a/"` marker removed), truncated to the
segments preceding the `"src"` segment, or the changed file's parent
directory when no `"src"` segment occurs. -/
def specResolve (patch : String) : Option String :=
  ((pySplitlines patch).filterMap rawDiffToken).head?.map
    (fun tok => truncOrDirname (stripLeadingASlash tok))

/-- One task instance as read from the input JSONL
(`instance["test_patch"]` may be absent, hence `Option`). -/
structure TaskInstance where
  instance_id : String
  pull_number : Option Nat
  base_commit : String
  patch : String
  test_patch : Option String
  deriving DecidableEq

/-- Oracle giving the outcome of each external command `validate_instance`
may run, plus the `gradlew.exists()` file-system check. -/
structure Oracle where
  clone : CmdOutcome
  checkout : CmdOutcome
  gitApplyPatch : CmdOutcome
  gradlewExists : Bool
  buildCmd : CmdOutcome
  gitApplyTestPatch : CmdOutcome
  testCmd : CmdOutcome
  deriving DecidableEq

/-- The result dict assembled by `maven_enhanced.validate_instance`. -/
structure ValidationResult where
  instance_id : String
  pull_number : Option Nat
  patch_applied : Bool
  patch_build_passed : Bool
  test_patch_applied : Bool
  test_build_passed : Bool
  patch_build_log : String
  test_build_log : String
  deriving DecidableEq

/-- Function `validate_instance` of `maven_enhanced.py`.  Each `if not success: return` of
the Python is an `if`/`else`; `disable_global_werror` only touches the
file system and is modelled separately (`WerrorState`). -/
def validate_instance (inst : TaskInstance) (o : Oracle) : ValidationResult :=
  let base : ValidationResult :=
    { instance_id := inst.instance_id
      pull_number := inst.pull_number
      patch_applied := false
      patch_build_passed := false
      test_patch_applied := false
      test_build_passed := false
      patch_build_log := ""
      test_build_log := "" }
  if (runCmd o.clone).1 = false then
    { base with patch_build_log := " Clone failed:\n" ++ strSlice MAX_LOG_SIZE (runCmd o.clone).2 }
  else if (runCmd o.checkout).1 = false then
    { base with patch_build_log := "Checkout failed:\n" ++ strSlice MAX_LOG_SIZE (runCmd o.checkout).2 }
  else if (runCmd o.gitApplyPatch).1 = false then
    { base with patch_build_log := " Patch failed:\n" ++ strSlice MAX_LOG_SIZE (runCmd o.gitApplyPatch).2 }
  else
    let afterApply := { base with patch_applied := true }
    if optStrTruthy (extract_submodule_from_patch inst.patch) = false then
      { afterApply with patch_build_log := " Could not determine submodule from patch." }
    else if o.gradlewExists = false then
      { afterApply with patch_build_log := " gradlew not found in repo root." }
    else
      let afterBuild :=
        { afterApply with
          patch_build_passed := (runCmd o.buildCmd).1
          patch_build_log := strSlice MAX_LOG_SIZE (runCmd o.buildCmd).2 }
      if (runCmd o.buildCmd).1 = false then afterBuild
      else if optStrTruthy inst.test_patch then
        if (runCmd o.gitApplyTestPatch).1 = false then
          { afterBuild with
            test_build_log := "Test patch failed:\n" ++ strSlice MAX_LOG_SIZE (runCmd o.gitApplyTestPatch).2 }
        else
          { afterBuild with
            test_patch_applied := true
            test_build_passed := (runCmd o.testCmd).1
            test_build_log := strSlice MAX_LOG_SIZE (runCmd o.testCmd).2 }
      else afterBuild

/-- The two output streams of `main` (`OUTPUT_FILE` vs `FAIL_FILE`). -/
inductive Stream where
  | validated
  | failed
  deriving DecidableEq

/-- The routing decision of `maven_enhanced.main`
(`if result["patch_build_passed"]: validated.append(...) else failed.append(...)`). -/
def routeOf (r : ValidationResult) : Stream :=
  if r.patch_build_passed then .validated else .failed

/-- One output record of `main`: the instance dict updated with the result
dict (`instance.update(result)`). -/
abbrev TaskRecord := TaskInstance × ValidationResult

/-- The record produced for one instance by the loop body of `main`. -/
def mkRecord (x : TaskInstance × Oracle) : TaskRecord :=
  (x.1, validate_instance x.1 x.2)

/-- The gating boolean of `maven_enhanced.main`. -/
def gate (r : TaskRecord) : Bool := r.2.patch_build_passed

/-- The loop of `maven_enhanced.main`: processes instances in order,
appending each record to exactly one of `(validated, failed)`. -/
def processAll : List (TaskInstance × Oracle) → List TaskRecord × List TaskRecord
  | [] => ([], [])
  | x :: rest =>
    let r := mkRecord x
    let pr := processAll rest
    if gate r then (r :: pr.1, pr.2) else (pr.1, r :: pr.2)

end MavenEnhanced

/-- Python exceptions that the older command-runner variants can raise. -/
inductive PyExc where
  | unicodeDecodeError
  | calledProcessError
  deriving DecidableEq

namespace MavenEnhancedFast

/-- Constant `MAX_LOG_SIZE` of `maven_enhanced_fast.py`. -/
def MAX_LOG_SIZE : Nat := 3000

/-- Function `run_cmd` of `maven_enhanced_fast.py` (identical behaviour to
the copy in `maven_enhanced.py`: the extra `print` on timeout has no effect
on the returned value). -/
def runCmd : CmdOutcome → Bool × String
  | .completed rc out => (rc == 0, out)
  | .timedOut => (false, " Timeout")

/-- One task instance as used by `maven_enhanced_fast.py` (`pull_number`,
`base_commit` and `patch` are accessed unconditionally). -/
structure FastInstance where
  instance_id : String
  pull_number : Nat
  base_commit : String
  patch : String
  deriving DecidableEq

/-- A stage inside the `try` block of `validate_instance`: either its
external command reaches `run_cmd` normally, or some Python exception
escapes the stage (for example `Path.write_text` failing, or
`subprocess.run` raising `FileNotFoundError`). -/
inductive PyStep where
  | normal (outcome : CmdOutcome)
  | raised
  deriving DecidableEq

/-- Oracle for one run of `maven_enhanced_fast.validate_instance`. -/
structure FastOracle where
  addWorktree : CmdOutcome
  applyStep : PyStep
  buildStep : PyStep
  deriving DecidableEq

/-- The result dict of `maven_enhanced_fast.validate_instance`
(`instance.copy()` plus the keys set by the function). -/
structure FastResult where
  instance_id : String
  pull_number : Nat
  base_commit : String
  patch : String
  build_passed : Bool
  build_log : String
  pr_status : String
  deriving DecidableEq

/-- Observable actions of `maven_enhanced_fast.validate_instance`, in
particular the `remove_worktree` teardown call issued by its `finally`
block. -/
inductive FastEvent where
  | attemptedAddWorktree
  | attemptedPatchStage
  | attemptedBuildStage
  | removedWorktree
  deriving DecidableEq

/-- Function `validate_instance` of `maven_enhanced_fast.py`, instrumented
with the list of actions taken.  `Except.error` models a Python exception
propagating out of the function (after the `finally` block ran); the
worktree-creation failure path returns before the `try`, so no teardown
event is emitted there. -/
def validate_instance (inst : FastInstance) (o : FastOracle) :
    Except Unit FastResult × List FastEvent :=
  let base : FastResult :=
    { instance_id := inst.instance_id
      pull_number := inst.pull_number
      base_commit := inst.base_commit
      patch := inst.patch
      build_passed := false
      build_log := ""
      pr_status := "" }
  if (runCmd o.addWorktree).1 = false then
    (Except.ok
      { base with
        build_passed := false
        build_log := " Worktree creation failed:\n" ++ strSlice MAX_LOG_SIZE (runCmd o.addWorktree).2
        pr_status := " PR #" ++ toString inst.pull_number ++ ": Worktree creation failed" },
     [.attemptedAddWorktree])
  else
    match o.applyStep with
    | .raised =>
      (Except.error (), [.attemptedAddWorktree, .attemptedPatchStage, .removedWorktree])
    | .normal ap =>
      if (runCmd ap).1 = false then
        (Except.ok
          { base with
            build_passed := false
            build_log := "Patch failed:\n" ++ strSlice MAX_LOG_SIZE (runCmd ap).2
            pr_status := " PR #" ++ toString inst.pull_number ++ ": Patch failed" },
         [.attemptedAddWorktree, .attemptedPatchStage, .removedWorktree])
      else
        match o.buildStep with
        | .raised =>
          (Except.error (),
           [.attemptedAddWorktree, .attemptedPatchStage, .attemptedBuildStage, .removedWorktree])
        | .normal bd =>
          (Except.ok
            { base with
              build_passed := (runCmd bd).1
              build_log := strSlice MAX_LOG_SIZE (runCmd bd).2
              pr_status :=
                (if (runCmd bd).1 then "✅" else "❌") ++ " PR #" ++ toString inst.pull_number
                  ++ ": " ++ (if (runCmd bd).1 then "Passed" else "Failed") },
           [.attemptedAddWorktree, .attemptedPatchStage, .attemptedBuildStage, .removedWorktree])

/-- The gating boolean of `maven_enhanced_fast.main`
(`if result["build_passed"]`). -/
def fgate (r : FastResult) : Bool := r.build_passed

/-- The collection loop of `maven_enhanced_fast.main`: consumes completed
results (in whatever order `as_completed` yields them) and appends each to
exactly one of `(validated, failed)`. -/
def fastPartition : List FastResult → List FastResult × List FastResult
  | [] => ([], [])
  | r :: rest =>
    let pr := fastPartition rest
    if fgate r then (r :: pr.1, pr.2) else (pr.1, r :: pr.2)

end MavenEnhancedFast

namespace ValidateMavenBuilds

/-- A raw byte string, represented by its two decodings: `decode()` (strict,
`none` when the bytes are not valid UTF-8, in which case Python raises
`UnicodeDecodeError`) and `decode(errors="replace")` (total). -/
structure Bytes where
  decodeStrict : Option String
  decodeReplace : String
  deriving DecidableEq

/-- Outcome of one `subprocess.run` call with the output still undecoded. -/
inductive RawOutcome where
  | completed (returncode : Int) (stdout : Bytes)
  | timedOut
  deriving DecidableEq

/-- Function `run_cmd` of `validate_maven_builds.py`: it decodes the output
STRICTLY (`result.stdout.decode()`, no `errors="replace"`), so undecodable
output raises `UnicodeDecodeError` instead of returning. -/
def runCmd : RawOutcome → Except PyExc (Bool × String)
  | .completed rc out =>
    match out.decodeStrict with
    | some s => Except.ok (rc == 0, s)
    | none => Except.error .unicodeDecodeError
  | .timedOut => Except.ok (false, "Timeout")

end ValidateMavenBuilds

namespace TestBuild

/-- A `subprocess.CompletedProcess` as produced with `capture_output=True`
and `text=True` (separate stdout/stderr streams). -/
structure RunResult where
  returncode : Int
  stdout : String
  stderr : String
  deriving DecidableEq

/-- Function `run_cmd` of `test_build.py`: with `check=True` (the default)
it RAISES `subprocess.CalledProcessError` whenever the command exits
non-zero; with `check=False` it returns the completed result. -/
def runCmd (check : Bool) (result : RunResult) : Except PyExc RunResult :=
  if result.returncode ≠ 0 ∧ check = true then Except.error .calledProcessError
  else Except.ok result

end TestBuild

namespace ApptainerBuild

/-- Outcome of one `subprocess.run` call in `apptainer_build.py`
(`text=True`, separate stdout/stderr). -/
structure StepResult where
  returncode : Int
  stdout : String
  stderr : String
  deriving DecidableEq

/-- The fields of one test spec consumed by `build_def`. -/
structure TestSpec where
  instance_id : String
  setup_env_script : String
  install_repo_script : String
  deriving DecidableEq

/-- The `setup_scripts` dict of `build_def`; Python dicts preserve insertion
order, so `setup_env.sh` precedes `setup_repo.sh`. -/
def setup_scripts (ts : TestSpec) : List (String × String) :=
  [("setup_env.sh", ts.setup_env_script), ("setup_repo.sh", ts.install_repo_script)]

/-- Oracle for one iteration of `build_def`: the outcome of the image pull,
the sandbox build, and the `apptainer exec` run of each setup script. -/
structure BuildOracle where
  pull : StepResult
  buildSandbox : StepResult
  execScript : String → StepResult

/-- Observable actions of one `build_def` iteration. -/
inductive BuildEvent where
  | ranPull
  | ranSandboxBuild
  | wroteScript (name : String) (content : String)
  | copiedIntoSandbox (name : String)
  | ranScript (name : String)
  deriving DecidableEq

/-- Terminal outcome of one `build_def` iteration: either the sandbox was
built, or a `BuildImageError` carrying the failing step's message was
raised (it is then caught by the surrounding `except`, which logs it and
moves on to the next instance, so the abort is per-instance). -/
inductive BuildOutcome where
  | built
  | raisedBuildImageError (msg : String)
  deriving DecidableEq

/-- The per-script loop of `build_def`: for each script (in dict order) the
script is written to the build dir, copied into the sandbox, and executed
there; a non-zero exit raises with a message naming that exact script. -/
def runSetupScripts (o : BuildOracle) :
    List (String × String) → BuildOutcome × List BuildEvent
  | [] => (.built, [])
  | (name, content) :: rest =>
    let evs := [BuildEvent.wroteScript name content, .copiedIntoSandbox name, .ranScript name]
    let r := o.execScript name
    if r.returncode ≠ 0 then
      (.raisedBuildImageError ("Failed to run " ++ name ++ " in Apptainer sandbox: " ++ r.stderr),
       evs)
    else
      let pr := runSetupScripts o rest
      (pr.1, evs ++ pr.2)

/-- One iteration of `apptainer_build.build_def` for a single test spec:
pull the base image, build the writable sandbox, then run the setup
scripts; any non-zero exit raises `BuildImageError` with the message built
at that step. -/
def build_def_one (ts : TestSpec) (o : BuildOracle) : BuildOutcome × List BuildEvent :=
  if o.pull.returncode ≠ 0 then
    (.raisedBuildImageError ("Failed to pull Apptainer base image: " ++ o.pull.stderr),
     [.ranPull])
  else if o.buildSandbox.returncode ≠ 0 then
    (.raisedBuildImageError ("Failed to build Apptainer base sandbox: " ++ o.buildSandbox.stderr),
     [.ranPull, .ranSandboxBuild])
  else
    let pr := runSetupScripts o (setup_scripts ts)
    (pr.1, [BuildEvent.ranPull, .ranSandboxBuild] ++ pr.2)

end ApptainerBuild

namespace WerrorState

/-- A file tree: path (relative to the checkout root) to contents. -/
def FS := String → Option String

/-- The exact text appended by `disable_global_werror` to the root
`build.gradle` (the triple-quoted literal of `maven_enhanced.py`). -/
def werrorSnippet : String :=
  "\n\n// --- PATCHED BY SCRIPT: Disable global -Werror ---\nallprojects \x7b\n    tasks.withType(JavaCompile).configureEach \x7b\n        options.compilerArgs.removeAll \x7b it == \x27-Werror\x27 \x7d\n    \x7d\n\x7d\n"

/-- Writing (or overwriting) one file of the tree: models both
`Path.write_text` and appends once the new content is computed. -/
def writeFile (path content : String) (fs : FS) : FS :=
  fun p => if p = path then some content else fs p

/-- Function `disable_global_werror` of `maven_enhanced.py`: when the root
`build.gradle` exists, open it in append mode and write `werrorSnippet`;
otherwise leave the tree unchanged (the code only prints a warning). -/
def disable_global_werror (fs : FS) : FS :=
  match fs "build.gradle" with
  | some content => writeFile "build.gradle" (content ++ werrorSnippet) fs
  | none => fs

/-- The file-system inputs of one `validate_instance` run: the checkout at
`base_commit`, and the (uninterpreted) effect of `git apply` with a given
patch text on a tree. -/
structure PipelineTrees where
  checkoutTree : FS
  applyTool : String → FS → FS

/-- The tree `git apply patch.diff` is invoked on (lines 101-103 of
`maven_enhanced.py`): the checkout after `disable_global_werror`, with the
patch text written to `patch.diff` by `apply_patch`. -/
def treeAtGitApply (patch : String) (st : PipelineTrees) : FS :=
  writeFile "patch.diff" patch (disable_global_werror st.checkoutTree)

/-- The tree the BUILD-stage gradle command runs in. -/
def treeAtBuild (patch : String) (st : PipelineTrees) : FS :=
  st.applyTool patch (treeAtGitApply patch st)

/-- The tree the TEST-stage gradle command runs in (after the test patch is
written to `test_patch.diff` and applied). -/
def treeAtTest (patch test_patch : String) (st : PipelineTrees) : FS :=
  st.applyTool test_patch (writeFile "test_patch.diff" test_patch (treeAtBuild patch st))

end WerrorState


/-- A log of exactly `MAX_LOG_SIZE` characters, used to exhibit the
truncation boundary. -/
def hugeLog : String := ⟨List.replicate MavenEnhanced.MAX_LOG_SIZE 'a'⟩

/-- A checkout tree that already contains a root `patch.diff` (used to
exhibit the one pre-existing file, besides `build.gradle`, that the
orchestrator overwrites before patch application). -/
def trickyTree : WerrorState.FS := fun p =>
  if p = "patch.diff" then some "old contents"
  else if p = "build.gradle" then some "plugins" else none

/-! ## Theorems -/

namespace MavenEnhanced

/-- The synthetic timeout marker survives truncation unchanged. -/
theorem strSlice_timeout_marker : strSlice MAX_LOG_SIZE " Timeout" = " Timeout" := by decide

/-- C1: for every ValidationResult produced by `validate_instance`, the
milestone booleans are monotonic in pipeline order: `test_build_passed`
implies `test_patch_applied`, which implies `patch_build_passed`, which
implies `patch_applied`. -/
theorem milestone_monotonicity (inst : TaskInstance) (o : Oracle) :
    ((validate_instance inst o).test_build_passed = true →
      (validate_instance inst o).test_patch_applied = true) ∧
    ((validate_instance inst o).test_patch_applied = true →
      (validate_instance inst o).patch_build_passed = true) ∧
    ((validate_instance inst o).patch_build_passed = true →
      (validate_instance inst o).patch_applied = true) := by
  simp only [validate_instance]
  repeat' split
  all_goals simp_all

/-- Witness for C1 at a concrete instance and oracle on which all four
milestones are reached. -/
theorem milestone_monotonicity_witness :
    (validate_instance
        ⟨"spring-boot-1", some 1, "c0", "diff --git a/m/src/F.java b/m/src/F.java", some "tp"⟩
        ⟨.completed 0 "", .completed 0 "", .completed 0 "", true, .completed 0 "ok",
          .completed 0 "", .completed 0 "ok"⟩).test_patch_applied = true ∧
    (validate_instance
        ⟨"spring-boot-1", some 1, "c0", "diff --git a/m/src/F.java b/m/src/F.java", some "tp"⟩
        ⟨.completed 0 "", .completed 0 "", .completed 0 "", true, .completed 0 "ok",
          .completed 0 "", .completed 0 "ok"⟩).patch_build_passed = true ∧
    (validate_instance
        ⟨"spring-boot-1", some 1, "c0", "diff --git a/m/src/F.java b/m/src/F.java", some "tp"⟩
        ⟨.completed 0 "", .completed 0 "", .completed 0 "", true, .completed 0 "ok",
          .completed 0 "", .completed 0 "ok"⟩).patch_applied = true := by
  refine ⟨(milestone_monotonicity _ _).1 (by decide),
          (milestone_monotonicity _ _).2.1 (by decide),
          (milestone_monotonicity _ _).2.2 (by decide)⟩

/-- C2: when the instance's `test_patch` is empty or absent, the pipeline
never enters the test stages: `test_patch_applied` and `test_build_passed`
stay false, `test_build_log` stays empty, and `patch_build_passed = true`
alone routes the record to the validated stream. -/
theorem empty_test_patch_terminal (inst : TaskInstance) (o : Oracle)
    (h : optStrTruthy inst.test_patch = false) :
    (validate_instance inst o).test_patch_applied = false ∧
    (validate_instance inst o).test_build_passed = false ∧
    (validate_instance inst o).test_build_log = "" ∧
    ((validate_instance inst o).patch_build_passed = true →
      routeOf (validate_instance inst o) = Stream.validated) := by
  simp only [validate_instance, routeOf]
  repeat' split
  all_goals simp_all

/-- Witness for C2: an instance with no `test_patch` key whose build
succeeds is routed to the validated stream with empty test fields. -/
theorem empty_test_patch_terminal_witness :
    (validate_instance
        ⟨"spring-boot-2", some 2, "c0", "diff --git a/m/src/F.java b/m/src/F.java", none⟩
        ⟨.completed 0 "", .completed 0 "", .completed 0 "", true, .completed 0 "ok",
          .completed 0 "", .completed 0 "ok"⟩).test_patch_applied = false ∧
    routeOf (validate_instance
        ⟨"spring-boot-2", some 2, "c0", "diff --git a/m/src/F.java b/m/src/F.java", none⟩
        ⟨.completed 0 "", .completed 0 "", .completed 0 "", true, .completed 0 "ok",
          .completed 0 "", .completed 0 "ok"⟩) = Stream.validated := by
  refine ⟨(empty_test_patch_terminal _ _ (by decide)).1,
          (empty_test_patch_terminal _ _ (by decide)).2.2.2 (by decide)⟩

/-- C4: every runner maps a timeout expiry to a normal `(success = false,
synthetic marker)` return, and a build-command timeout is stored as
`patch_build_passed = false` with the build log equal to the marker. -/
theorem timeout_marker_semantics :
    MavenEnhanced.runCmd CmdOutcome.timedOut = (false, " Timeout") ∧
    MavenEnhancedFast.runCmd CmdOutcome.timedOut = (false, " Timeout") ∧
    ValidateMavenBuilds.runCmd ValidateMavenBuilds.RawOutcome.timedOut =
      Except.ok (false, "Timeout") ∧
    ∀ (inst : TaskInstance) (o : Oracle),
      (runCmd o.clone).1 = true →
      (runCmd o.checkout).1 = true →
      (runCmd o.gitApplyPatch).1 = true →
      optStrTruthy (extract_submodule_from_patch inst.patch) = true →
      o.gradlewExists = true →
      o.buildCmd = CmdOutcome.timedOut →
      (validate_instance inst o).patch_build_passed = false ∧
      (validate_instance inst o).patch_build_log = " Timeout" := by
  refine ⟨rfl, rfl, rfl, ?_⟩
  intro inst o h1 h2 h3 h4 h5 h6
  simp only [validate_instance, h1, h2, h3, h4, h5, h6]
  simp [runCmd, strSlice_timeout_marker]

/-- Witness for C4: a concrete run whose build command times out. -/
theorem timeout_marker_semantics_witness :
    (validate_instance
        ⟨"spring-boot-3", some 3, "c0", "diff --git a/m/src/F.java b/m/src/F.java", none⟩
        ⟨.completed 0 "", .completed 0 "", .completed 0 "", true, .timedOut,
          .completed 0 "", .completed 0 ""⟩).patch_build_passed = false ∧
    (validate_instance
        ⟨"spring-boot-3", some 3, "c0", "diff --git a/m/src/F.java b/m/src/F.java", none⟩
        ⟨.completed 0 "", .completed 0 "", .completed 0 "", true, .timedOut,
          .completed 0 "", .completed 0 ""⟩).patch_build_log = " Timeout" :=
  timeout_marker_semantics.2.2.2 _ _ (by decide) (by decide) (by decide) (by decide)
    (by decide) (by decide)

end MavenEnhanced


/-- Generic partition lemma: filtering a list by a predicate and by its
negation preserves per-element multiplicities. -/
theorem count_filter_split {α : Type} [BEq α] [LawfulBEq α] (p : α → Bool) (l : List α) (x : α) :
    (l.filter p).count x + (l.filter (fun a => !p a)).count x = l.count x := by
  induction l with
  | nil => rfl
  | cons a t ih =>
    cases h : p a <;> simp [List.filter_cons, h, List.count_cons] <;> omega

/-- Generic partition lemma: the two filtered halves exhaust the list. -/
theorem length_filter_split {α : Type} (p : α → Bool) (l : List α) :
    (l.filter p).length + (l.filter (fun a => !p a)).length = l.length := by
  induction l with
  | nil => rfl
  | cons a t ih =>
    cases h : p a <;> simp [List.filter_cons, h] <;> omega

namespace MavenEnhanced

/-- The loop of `maven_enhanced.main` computes the two filtered halves of
the record list, in iteration order. -/
theorem processAll_eq_filter (batch : List (TaskInstance × Oracle)) :
    processAll batch =
      ((batch.map mkRecord).filter gate,
       (batch.map mkRecord).filter (fun r => !gate r)) := by
  induction batch with
  | nil => rfl
  | cons x rest ih =>
    cases h : gate (mkRecord x) <;> simp [processAll, ih, List.filter_cons, h]

end MavenEnhanced

namespace MavenEnhancedFast

/-- The collection loop of `maven_enhanced_fast.main` computes the two
filtered halves of the completed-result list. -/
theorem fastPartition_eq_filter (l : List FastResult) :
    fastPartition l = (l.filter fgate, l.filter (fun r => !fgate r)) := by
  induction l with
  | nil => rfl
  | cons r rest ih =>
    cases h : fgate r <;> simp [fastPartition, ih, List.filter_cons, h]

end MavenEnhancedFast

namespace MavenEnhanced

/-- C3: every instance of a batch yields exactly one record, placed in
exactly one of the two output streams; membership in a stream is decided
solely by the gating boolean of that record, and (for the concurrent fast
variant) the partition is invariant, up to permutation, under the order in
which validations complete. -/
theorem result_partition_exactly_once :
    (∀ (batch : List (TaskInstance × Oracle)) (r : TaskRecord),
        r ∈ batch.map mkRecord →
        ((r ∈ (processAll batch).1 ↔ gate r = true) ∧
         (r ∈ (processAll batch).2 ↔ gate r = false) ∧
         ¬(r ∈ (processAll batch).1 ∧ r ∈ (processAll batch).2))) ∧
    (∀ (batch : List (TaskInstance × Oracle)) (r : TaskRecord),
        (processAll batch).1.count r + (processAll batch).2.count r =
          (batch.map mkRecord).count r) ∧
    (∀ batch : List (TaskInstance × Oracle),
        (processAll batch).1.length + (processAll batch).2.length = batch.length) ∧
    (∀ (l : List MavenEnhancedFast.FastResult) (r : MavenEnhancedFast.FastResult),
        (r ∈ (MavenEnhancedFast.fastPartition l).1 ↔
          r ∈ l ∧ MavenEnhancedFast.fgate r = true) ∧
        (r ∈ (MavenEnhancedFast.fastPartition l).2 ↔
          r ∈ l ∧ MavenEnhancedFast.fgate r = false)) ∧
    (∀ (l₁ l₂ : List MavenEnhancedFast.FastResult), l₁.Perm l₂ →
        (MavenEnhancedFast.fastPartition l₁).1.Perm (MavenEnhancedFast.fastPartition l₂).1 ∧
        (MavenEnhancedFast.fastPartition l₁).2.Perm (MavenEnhancedFast.fastPartition l₂).2) := by
  refine ⟨?_, ?_, ?_, ?_, ?_⟩
  · intro batch r hr
    rw [processAll_eq_filter]
    simp only [List.mem_filter]
    constructor
    · constructor
      · intro ⟨_, hg⟩; exact hg
      · intro hg; exact ⟨hr, hg⟩
    constructor
    · constructor
      · intro ⟨_, hg⟩; simpa using hg
      · intro hg; exact ⟨hr, by simpa using hg⟩
    · rintro ⟨⟨_, h1⟩, ⟨_, h2⟩⟩
      simp [h1] at h2
  · intro batch r
    rw [processAll_eq_filter]
    exact count_filter_split gate (batch.map mkRecord) r
  · intro batch
    rw [processAll_eq_filter]
    have := length_filter_split gate (batch.map mkRecord)
    simpa using this
  · intro l r
    rw [MavenEnhancedFast.fastPartition_eq_filter]
    simp [List.mem_filter]
  · intro l₁ l₂ hperm
    rw [MavenEnhancedFast.fastPartition_eq_filter, MavenEnhancedFast.fastPartition_eq_filter]
    exact ⟨hperm.filter _, hperm.filter _⟩

/-- Witness for C3 on a concrete two-instance batch (one passing build, one
failing) and, for the fast variant, the two completion orders of a
two-result batch. -/
theorem result_partition_exactly_once_witness :
    ((⟨"i1", some 1, "c0", "diff --git a/m/src/F.java b/m/src/F.java", none⟩,
       validate_instance
         ⟨"i1", some 1, "c0", "diff --git a/m/src/F.java b/m/src/F.java", none⟩
         ⟨.completed 0 "", .completed 0 "", .completed 0 "", true, .completed 0 "ok",
           .completed 0 "", .completed 0 ""⟩) ∈
      (processAll
        [(⟨"i1", some 1, "c0", "diff --git a/m/src/F.java b/m/src/F.java", none⟩,
          ⟨.completed 0 "", .completed 0 "", .completed 0 "", true, .completed 0 "ok",
            .completed 0 "", .completed 0 ""⟩),
         (⟨"i2", some 2, "c0", "diff --git a/m/src/F.java b/m/src/F.java", none⟩,
          ⟨.completed 0 "", .completed 0 "", .completed 0 "", true, .completed 1 "bad",
            .completed 0 "", .completed 0 ""⟩)]).1) ∧
    (MavenEnhancedFast.fastPartition
        [⟨"i1", 1, "c0", "p", true, "", ""⟩, ⟨"i2", 2, "c0", "p", false, "", ""⟩]).1.Perm
      (MavenEnhancedFast.fastPartition
        [⟨"i2", 2, "c0", "p", false, "", ""⟩, ⟨"i1", 1, "c0", "p", true, "", ""⟩]).1 := by
  constructor
  · exact (result_partition_exactly_once.1 _ _ (by decide)).1.mpr (by decide)
  · exact (result_partition_exactly_once.2.2.2.2 _ _ (by decide)).1

end MavenEnhanced


namespace MavenEnhancedFast

/-- C8: whenever worktree provisioning succeeded, the forced worktree
removal of the `finally` block runs exactly once before
`validate_instance` returns — on the patch-failure path, the build path
(passed or failed), and the paths where a later stage raises — and it is
the last action taken.  (When provisioning itself fails the function
returns before the `try`, so no teardown is attempted.) -/
theorem worktree_teardown_exactly_once (inst : FastInstance) (o : FastOracle)
    (h : (runCmd o.addWorktree).1 = true) :
    (validate_instance inst o).2.count FastEvent.removedWorktree = 1 ∧
    (validate_instance inst o).2.getLast? = some FastEvent.removedWorktree := by
  simp only [validate_instance, h]
  cases hap : o.applyStep with
  | raised => simp
  | normal ap =>
    cases hb : (runCmd ap).1 with
    | false => simp [hb]
    | true =>
      cases hbs : o.buildStep with
      | raised => simp [hb]
      | normal bd => simp [hb]

/-- Witness for C8: provisioning succeeds and the build stage raises; the
teardown still runs exactly once, as the final action. -/
theorem worktree_teardown_exactly_once_witness :
    ((validate_instance ⟨"i", 7, "c0", "p"⟩
        ⟨.completed 0 "", .normal (.completed 0 ""), .raised⟩).2.count
      FastEvent.removedWorktree = 1) ∧
    ((validate_instance ⟨"i", 7, "c0", "p"⟩
        ⟨.completed 0 "", .normal (.completed 0 ""), .raised⟩).2.getLast? =
      some FastEvent.removedWorktree) :=
  worktree_teardown_exactly_once _ _ (by decide)

end MavenEnhancedFast


namespace ApptainerBuild

/-- C9: the two setup scripts are copied into the sandbox and executed in
declared order (`setup_env.sh` strictly before `setup_repo.sh`, each copy
before its run), and any non-zero exit of the image pull, the sandbox
build, or either setup script raises `BuildImageError` with the captured
log attributed to that exact step, skipping all later steps. -/
theorem sandbox_setup_order_and_abort (ts : TestSpec) (o : BuildOracle) :
    (o.pull.returncode = 0 → o.buildSandbox.returncode = 0 →
     (o.execScript "setup_env.sh").returncode = 0 →
     (o.execScript "setup_repo.sh").returncode = 0 →
      build_def_one ts o =
        (.built,
         [.ranPull, .ranSandboxBuild,
          .wroteScript "setup_env.sh" ts.setup_env_script,
          .copiedIntoSandbox "setup_env.sh", .ranScript "setup_env.sh",
          .wroteScript "setup_repo.sh" ts.install_repo_script,
          .copiedIntoSandbox "setup_repo.sh", .ranScript "setup_repo.sh"])) ∧
    (o.pull.returncode ≠ 0 →
      build_def_one ts o =
        (.raisedBuildImageError ("Failed to pull Apptainer base image: " ++ o.pull.stderr),
         [.ranPull])) ∧
    (o.pull.returncode = 0 → o.buildSandbox.returncode ≠ 0 →
      build_def_one ts o =
        (.raisedBuildImageError
            ("Failed to build Apptainer base sandbox: " ++ o.buildSandbox.stderr),
         [.ranPull, .ranSandboxBuild])) ∧
    (o.pull.returncode = 0 → o.buildSandbox.returncode = 0 →
     (o.execScript "setup_env.sh").returncode ≠ 0 →
      build_def_one ts o =
        (.raisedBuildImageError
            ("Failed to run setup_env.sh in Apptainer sandbox: "
              ++ (o.execScript "setup_env.sh").stderr),
         [.ranPull, .ranSandboxBuild,
          .wroteScript "setup_env.sh" ts.setup_env_script,
          .copiedIntoSandbox "setup_env.sh", .ranScript "setup_env.sh"])) ∧
    (o.pull.returncode = 0 → o.buildSandbox.returncode = 0 →
     (o.execScript "setup_env.sh").returncode = 0 →
     (o.execScript "setup_repo.sh").returncode ≠ 0 →
      build_def_one ts o =
        (.raisedBuildImageError
            ("Failed to run setup_repo.sh in Apptainer sandbox: "
              ++ (o.execScript "setup_repo.sh").stderr),
         [.ranPull, .ranSandboxBuild,
          .wroteScript "setup_env.sh" ts.setup_env_script,
          .copiedIntoSandbox "setup_env.sh", .ranScript "setup_env.sh",
          .wroteScript "setup_repo.sh" ts.install_repo_script,
          .copiedIntoSandbox "setup_repo.sh", .ranScript "setup_repo.sh"])) := by
  refine ⟨?_, ?_, ?_, ?_, ?_⟩
  · intro h1 h2 h3 h4
    simp [build_def_one, runSetupScripts, setup_scripts, h1, h2, h3, h4]
  · intro h1
    simp [build_def_one, h1]
  · intro h1 h2
    simp [build_def_one, h1, h2]
  · intro h1 h2 h3
    simp [build_def_one, runSetupScripts, setup_scripts, h1, h2, h3]
  · intro h1 h2 h3 h4
    simp [build_def_one, runSetupScripts, setup_scripts, h1, h2, h3, h4]

/-- Witness for C9: a concrete spec whose `setup_env.sh` exits non-zero;
provisioning aborts there with the log attributed to that script, and
`setup_repo.sh` is never run. -/
theorem sandbox_setup_order_and_abort_witness :
    build_def_one ⟨"astropy-1", "ENV", "REPO"⟩
        { pull := ⟨0, "", ""⟩, buildSandbox := ⟨0, "", ""⟩,
          execScript := fun name => if name = "setup_env.sh" then ⟨1, "", "boom"⟩ else ⟨0, "", ""⟩ } =
      (.raisedBuildImageError "Failed to run setup_env.sh in Apptainer sandbox: boom",
       [.ranPull, .ranSandboxBuild, .wroteScript "setup_env.sh" "ENV",
        .copiedIntoSandbox "setup_env.sh", .ranScript "setup_env.sh"]) :=
  (sandbox_setup_order_and_abort _ _).2.2.2.1 (by decide) (by decide) (by decide)

end ApptainerBuild


/-- C5 counterexample: the two cited runner variants can raise on inputs
the claim says must be returned normally.  `test_build.run_cmd` raises
`CalledProcessError` for a non-zero exit with `check=True` (its default),
and `validate_maven_builds.run_cmd` raises `UnicodeDecodeError` when the
captured output is not strictly decodable. -/
theorem runner_raises_on_nonzero_exit :
    TestBuild.runCmd true ⟨1, "out", "err"⟩ = Except.error PyExc.calledProcessError ∧
    ValidateMavenBuilds.runCmd (.completed 1 ⟨none, "h�llo"⟩) =
      Except.error PyExc.unicodeDecodeError := by
  constructor
  · rfl
  · rfl

/-- C5 amended: the pipeline runners (`maven_enhanced` and
`maven_enhanced_fast`) return `(false, output)` for non-zero exits and are
total; `test_build.run_cmd` returns the completed result only when `check`
is false and raises exactly when the exit is non-zero and `check` is true;
`validate_maven_builds.run_cmd` returns `(returncode == 0, decoded)` only
when the output strictly decodes, raising `UnicodeDecodeError` otherwise. -/
theorem runner_error_return_amended :
    (∀ (rc : Int) (out : String), rc ≠ 0 →
        MavenEnhanced.runCmd (.completed rc out) = (false, out)) ∧
    (∀ (rc : Int) (out : String), rc ≠ 0 →
        MavenEnhancedFast.runCmd (.completed rc out) = (false, out)) ∧
    (∀ r : TestBuild.RunResult, TestBuild.runCmd false r = Except.ok r) ∧
    (∀ (check : Bool) (r : TestBuild.RunResult),
        (∃ e, TestBuild.runCmd check r = Except.error e) ↔
          (r.returncode ≠ 0 ∧ check = true)) ∧
    (∀ (rc : Int) (b : ValidateMavenBuilds.Bytes) (s : String),
        b.decodeStrict = some s →
        ValidateMavenBuilds.runCmd (.completed rc b) = Except.ok (rc == 0, s)) ∧
    (∀ (rc : Int) (b : ValidateMavenBuilds.Bytes),
        b.decodeStrict = none →
        ValidateMavenBuilds.runCmd (.completed rc b) = Except.error PyExc.unicodeDecodeError) := by
  refine ⟨?_, ?_, ?_, ?_, ?_, ?_⟩
  · intro rc out h
    simp [MavenEnhanced.runCmd, h]
  · intro rc out h
    simp [MavenEnhancedFast.runCmd, h]
  · intro r
    simp [TestBuild.runCmd]
  · intro check r
    by_cases h : r.returncode ≠ 0 ∧ check = true <;> simp [TestBuild.runCmd, h]
  · intro rc b s h
    simp [ValidateMavenBuilds.runCmd, h]
  · intro rc b h
    simp [ValidateMavenBuilds.runCmd, h]

/-- Witness for C5 (amended) at concrete runner inputs. -/
theorem runner_error_return_amended_witness :
    MavenEnhanced.runCmd (.completed 2 "boom") = (false, "boom") ∧
    TestBuild.runCmd false ⟨1, "o", "e"⟩ = Except.ok ⟨1, "o", "e"⟩ ∧
    ValidateMavenBuilds.runCmd (.completed 1 ⟨some "ok", "ok"⟩) = Except.ok (false, "ok") := by
  refine ⟨runner_error_return_amended.1 2 "boom" (by decide),
          runner_error_return_amended.2.2.1 _, ?_⟩
  have h := runner_error_return_amended.2.2.2.2.1 1 ⟨some "ok", "ok"⟩ "ok" rfl
  simpa using h

/-- Truncation bound: a Python slice `s[:n]` has at most `n` characters. -/
theorem strSlice_length_le (n : Nat) (s : String) : (strSlice n s).length ≤ n := by
  show (s.data.take n).length ≤ n
  rw [List.length_take]
  omega

/-- A fixed prefix plus a truncated log is bounded by the truncation limit
plus the prefix length. -/
theorem prefix_slice_length_le (p : String) (n : Nat) (s : String) :
    (p ++ strSlice n s).length ≤ n + p.length := by
  rw [String.length_append]
  have := strSlice_length_le n s
  omega

/-- C7 counterexample: when the clone step fails with a log of
`MAX_LOG_SIZE` characters, the stored `patch_build_log` is the fixed
prefix plus the truncated log, and so exceeds `MAX_LOG_SIZE` (by the 15
characters of the prefix). -/
theorem clone_failure_log_exceeds_max :
    ¬((MavenEnhanced.validate_instance
        ⟨"i0", some 0, "c0", "p", none⟩
        ⟨.completed 1 hugeLog, .completed 0 "", .completed 0 "", true, .completed 0 "",
          .completed 0 "", .completed 0 ""⟩).patch_build_log.length ≤
      MavenEnhanced.MAX_LOG_SIZE) := by
  have h : (MavenEnhanced.validate_instance
        ⟨"i0", some 0, "c0", "p", none⟩
        ⟨.completed 1 hugeLog, .completed 0 "", .completed 0 "", true, .completed 0 "",
          .completed 0 "", .completed 0 ""⟩).patch_build_log =
      " Clone failed:\n" ++ strSlice MavenEnhanced.MAX_LOG_SIZE hugeLog := rfl
  rw [h, String.length_append]
  have hs : (strSlice MavenEnhanced.MAX_LOG_SIZE hugeLog).length =
      MavenEnhanced.MAX_LOG_SIZE := by
    show (hugeLog.data.take MavenEnhanced.MAX_LOG_SIZE).length = MavenEnhanced.MAX_LOG_SIZE
    rw [List.length_take]
    simp [hugeLog]
  rw [hs]
  decide

/-- C7 amended: every stored log field is bounded by the configured
`MAX_LOG_SIZE` plus the length of the short fixed failure prefix prepended
on the clone/checkout/patch (and, for the fast variant, worktree) failure
paths — at most 19 characters for `maven_enhanced.py` and 27 for
`maven_enhanced_fast.py`.  The pure build/test logs are at most
`MAX_LOG_SIZE` themselves; only the prefixed failure paths exceed it. -/
theorem log_length_bounded_amended (inst : MavenEnhanced.TaskInstance)
    (o : MavenEnhanced.Oracle) (fi : MavenEnhancedFast.FastInstance)
    (fo : MavenEnhancedFast.FastOracle) (r : MavenEnhancedFast.FastResult) :
    (MavenEnhanced.validate_instance inst o).patch_build_log.length ≤
      MavenEnhanced.MAX_LOG_SIZE + 19 ∧
    (MavenEnhanced.validate_instance inst o).test_build_log.length ≤
      MavenEnhanced.MAX_LOG_SIZE + 19 ∧
    ((MavenEnhancedFast.validate_instance fi fo).1 = Except.ok r →
      r.build_log.length ≤ MavenEnhancedFast.MAX_LOG_SIZE + 27) := by
  refine ⟨?_, ?_, ?_⟩
  · simp only [MavenEnhanced.validate_instance]
    repeat' split
    all_goals dsimp only
    all_goals
      first
        | decide
        | exact le_trans (prefix_slice_length_le _ _ _) (Nat.add_le_add_left (by decide) _)
        | exact le_trans (strSlice_length_le _ _) (Nat.le_add_right _ _)
  · simp only [MavenEnhanced.validate_instance]
    repeat' split
    all_goals dsimp only
    all_goals
      first
        | decide
        | exact le_trans (prefix_slice_length_le _ _ _) (Nat.add_le_add_left (by decide) _)
        | exact le_trans (strSlice_length_le _ _) (Nat.le_add_right _ _)
  · intro hok
    simp only [MavenEnhancedFast.validate_instance] at hok
    repeat' split at hok
    all_goals simp only at hok
    all_goals try cases hok
    all_goals dsimp only
    all_goals
      first
        | decide
        | exact le_trans (prefix_slice_length_le _ _ _) (Nat.add_le_add_left (by decide) _)
        | exact le_trans (strSlice_length_le _ _) (Nat.le_add_right _ _)

/-- Witness for C7 (amended): the fast-variant bound at a concrete run
whose worktree creation fails with a long log. -/
theorem log_length_bounded_amended_witness :
    ((MavenEnhancedFast.validate_instance ⟨"i", 7, "c0", "p"⟩
        ⟨.completed 1 "x", .normal (.completed 0 ""), .normal (.completed 0 "ok")⟩).1 =
      Except.ok
        { instance_id := "i", pull_number := 7, base_commit := "c0", patch := "p"
          build_passed := false
          build_log := " Worktree creation failed:\nx"
          pr_status := " PR #7: Worktree creation failed" }) ∧
    (" Worktree creation failed:\nx".length ≤ MavenEnhancedFast.MAX_LOG_SIZE + 27) := by
  constructor
  · rfl
  · exact (log_length_bounded_amended
      ⟨"i", some 0, "c", "p", none⟩
      ⟨.completed 0 "", .completed 0 "", .completed 0 "", true, .completed 0 "",
        .completed 0 "", .completed 0 ""⟩
      ⟨"i", 7, "c0", "p"⟩
      ⟨.completed 1 "x", .normal (.completed 0 ""), .normal (.completed 0 "ok")⟩
      { instance_id := "i", pull_number := 7, base_commit := "c0", patch := "p"
        build_passed := false
        build_log := " Worktree creation failed:\nx"
        pr_status := " PR #7: Worktree creation failed" }).2.2 (by rfl)


/-- An infix of a list is an infix of any extension by one element. -/
theorem isInfix_cons {l r : List Char} (a : Char) (h : l <:+: r) : l <:+: a :: r := by
  obtain ⟨s, t, hst⟩ := h
  exact ⟨a :: s, t, by simp [hst]⟩

/-- Removing a pattern that occurs nowhere in the list leaves it unchanged
(for any amount of fuel). -/
theorem replaceDeleteFuel_eq_self (pat : List Char) :
    ∀ (fuel : Nat) (l : List Char), ¬ (pat <:+: l) → replaceDeleteFuel pat fuel l = l := by
  intro fuel
  induction fuel with
  | zero => intro l _; cases l <;> rfl
  | succ n ih =>
    intro l h
    cases l with
    | nil => rfl
    | cons c rest =>
      have hp : ¬ (pat.isPrefixOf (c :: rest) = true) := fun hb =>
        h (List.isPrefixOf_iff_prefix.mp hb).isInfix
      have hrest : ¬ (pat <:+: rest) := fun hi => h (isInfix_cons c hi)
      simp [replaceDeleteFuel, hp, ih rest hrest]

/-- Removing `"a/"` from `'a' :: '/' :: t` strips exactly that leading
occurrence when `t` itself contains none. -/
theorem replaceDelete_strip_list (t : List Char) (h : ¬ (['a', '/'] <:+: t)) (fuel : Nat) :
    replaceDeleteFuel ['a', '/'] (fuel + 1) ('a' :: '/' :: t) = t := by
  have hpre : (['a', '/'] : List Char).isPrefixOf ('a' :: '/' :: t) = true := by
    simp [List.isPrefixOf]
  simp [replaceDeleteFuel, hpre, replaceDeleteFuel_eq_self ['a', '/'] fuel t h]

namespace MavenEnhanced

/-- On tokens whose stripped path contains no internal `"a/"`, the
`replace`-everywhere of the code coincides with the prefix removal the
specification describes. -/
theorem pyReplaceDelete_eq_strip (tok : String)
    (h : ¬ (['a', '/'] <:+: (stripLeadingASlash tok).data)) :
    pyReplaceDelete "a/" tok = stripLeadingASlash tok := by
  by_cases hs : pyStartsWith "a/" tok = true
  · obtain ⟨t, ht⟩ := List.isPrefixOf_iff_prefix.mp hs
    have hdata : tok.data = 'a' :: '/' :: t := by rw [← ht]; rfl
    have hstrip : stripLeadingASlash tok = ⟨t⟩ := by
      simp only [stripLeadingASlash, hs, if_true]
      exact congrArg String.mk (by rw [hdata]; rfl)
    have hinf : ¬ (['a', '/'] <:+: t) := by rw [hstrip] at h; exact h
    rw [hstrip]
    show (⟨replaceDeleteFuel "a/".data tok.data.length tok.data⟩ : String) = ⟨t⟩
    congr 1
    rw [show "a/".data = ['a', '/'] from rfl, hdata]
    show replaceDeleteFuel ['a', '/'] (('a' :: '/' :: t).length) ('a' :: '/' :: t) = t
    simp only [List.length_cons]
    exact replaceDelete_strip_list t hinf _
  · have hstrip : stripLeadingASlash tok = tok := by simp [stripLeadingASlash, hs]
    have hinf : ¬ (['a', '/'] <:+: tok.data) := by rw [hstrip] at h; exact h
    rw [hstrip]
    conv_rhs => rw [show tok = (⟨tok.data⟩ : String) from rfl]
    show (⟨replaceDeleteFuel "a/".data tok.data.length tok.data⟩ : String) = ⟨tok.data⟩
    congr 1
    exact replaceDeleteFuel_eq_self _ _ _ hinf

/-- The guarded per-line body factors through the raw token. -/
theorem extractFromLine_eq (line : String) :
    extractFromLine line =
      (rawDiffToken line).map (fun tok => truncOrDirname (pyReplaceDelete "a/" tok)) := by
  unfold extractFromLine rawDiffToken
  by_cases h1 : pyStartsWith "diff --git" line = true <;> simp [h1]

/-- Scanning for the first line that yields a value is taking the head of
the candidate list. -/
theorem findSome?_shape {α β γ : Type} (f : α → Option β) (g : β → γ) (l : List α) :
    l.findSome? (fun x => (f x).map g) = ((l.filterMap f).head?).map g := by
  induction l with
  | nil => rfl
  | cons a t ih => cases h : f a <;> simp [List.findSome?_cons, List.filterMap_cons, h, ih]

/-- C6 counterexample: on a patch whose changed-file path `data/src/x`
contains the substring `"a/"` internally, the code's resolver returns
`"datsrc"` (the `replace` mangles `"data/"` into `"dat"` before the
split), while the resolver described by the claim — truncation of the
first changed file's path at the `"src"` segment — yields `"data"`. -/
theorem resolver_mangles_internal_a_slash :
    extract_submodule_from_patch "diff --git a/data/src/x b/data/src/x" = some "datsrc" ∧
    specResolve "diff --git a/data/src/x b/data/src/x" = some "data" ∧
    (some "datsrc" : Option String) ≠ some "data" := by
  refine ⟨by decide, by decide, by decide⟩

/-- C6 amended: the resolver returns the `truncOrDirname` reduction of the
first usable diff-header token with every occurrence of `"a/"` removed —
which equals the claim's description (leading `"a/"` marker dropped, then
truncated at `"src"` or to the parent directory) whenever that first
changed file's path contains no internal `"a/"` (later headers are
irrelevant: only the first usable token is ever inspected) — and when the
resolver derives no target (no usable header, or an empty derived path,
both falsy in Python), the orchestrator fails inside BUILD with
`patch_applied = true`, `patch_build_passed = false` and the fixed
no-submodule message. -/
theorem resolver_and_build_failure_amended :
    (∀ patch : String,
      (∀ tok ∈ ((pySplitlines patch).filterMap rawDiffToken).head?,
        ¬ (['a', '/'] <:+: (stripLeadingASlash tok).data)) →
      extract_submodule_from_patch patch = specResolve patch) ∧
    (∀ (inst : TaskInstance) (o : Oracle),
      (runCmd o.clone).1 = true →
      (runCmd o.checkout).1 = true →
      (runCmd o.gitApplyPatch).1 = true →
      optStrTruthy (extract_submodule_from_patch inst.patch) = false →
      (validate_instance inst o).patch_applied = true ∧
      (validate_instance inst o).patch_build_passed = false ∧
      (validate_instance inst o).patch_build_log =
        " Could not determine submodule from patch.") := by
  constructor
  · intro patch h
    unfold extract_submodule_from_patch specResolve
    rw [funext extractFromLine_eq, findSome?_shape]
    cases hh : ((pySplitlines patch).filterMap rawDiffToken).head? with
    | none => rfl
    | some tok =>
      have hm : tok ∈ ((pySplitlines patch).filterMap rawDiffToken).head? := by
        rw [hh]
        exact Option.mem_def.mpr rfl
      simp [pyReplaceDelete_eq_strip tok (h tok hm)]
  · intro inst o h1 h2 h3 h4
    simp only [validate_instance, h1, h2, h3, h4]
    simp

/-- Witness for C6 (amended): a patch whose first changed path has no
internal `"a/"`, on which both resolvers agree, and a patch with no diff
header on which the orchestrator fails inside BUILD as described. -/
theorem resolver_and_build_failure_amended_witness :
    (extract_submodule_from_patch "diff --git a/m/src/F.java b/m/src/F.java" =
      specResolve "diff --git a/m/src/F.java b/m/src/F.java") ∧
    ((validate_instance ⟨"i9", some 9, "c0", "no diff header here", none⟩
        ⟨.completed 0 "", .completed 0 "", .completed 0 "", true, .completed 0 "",
          .completed 0 "", .completed 0 ""⟩).patch_applied = true ∧
     (validate_instance ⟨"i9", some 9, "c0", "no diff header here", none⟩
        ⟨.completed 0 "", .completed 0 "", .completed 0 "", true, .completed 0 "",
          .completed 0 "", .completed 0 ""⟩).patch_build_passed = false ∧
     (validate_instance ⟨"i9", some 9, "c0", "no diff header here", none⟩
        ⟨.completed 0 "", .completed 0 "", .completed 0 "", true, .completed 0 "",
          .completed 0 "", .completed 0 ""⟩).patch_build_log =
       " Could not determine submodule from patch.") := by
  constructor
  · exact resolver_and_build_failure_amended.1 _ (by decide)
  · exact resolver_and_build_failure_amended.2 _ _ (by decide) (by decide) (by decide) (by decide)

end MavenEnhanced


namespace WerrorState

/-- C10 counterexample: the orchestrator writes the patch text to
`patch.diff` before invoking the apply tool, so a checkout that already
contains a root `patch.diff` has that pre-existing file (which is not
`build.gradle`) modified before patch application, contradicting the
claim's frame condition. -/
theorem preexisting_patch_file_overwritten :
    trickyTree "patch.diff" = some "old contents" ∧
    ("patch.diff" : String) ≠ "build.gradle" ∧
    treeAtGitApply "NEW PATCH" ⟨trickyTree, fun _ fs => fs⟩ "patch.diff" = some "NEW PATCH" ∧
    (some "old contents" : Option String) ≠ some "NEW PATCH" := by
  exact ⟨rfl, by decide, rfl, by decide⟩

set_option maxRecDepth 4096 in
/-- C10 amended: before the apply tool runs, the orchestrator touches
exactly two paths of the checkout — it appends the fixed `-Werror`
stripping snippet to the root `build.gradle` when that file exists (and
leaves the path absent otherwise), and writes the patch text to
`patch.diff` (a fresh file unless the checkout already contained one) —
every other pre-existing file is unchanged; the BUILD stage then runs
against exactly that snippet-carrying tree with the patch applied, and the
TEST stage against that same BUILD tree with the test patch written to
`test_patch.diff` (all other paths untouched by that write) and applied —
never against `base_commit` plus the patch alone, since appending the
non-empty snippet always changes `build.gradle`. -/
theorem werror_injection_frame_amended (patch tp : String) (st : PipelineTrees)
    (p : String) (c : String) :
    (p ≠ "build.gradle" → p ≠ "patch.diff" →
      treeAtGitApply patch st p = st.checkoutTree p) ∧
    (st.checkoutTree "build.gradle" = some c →
      treeAtGitApply patch st "build.gradle" = some (c ++ werrorSnippet)) ∧
    (st.checkoutTree "build.gradle" = none →
      treeAtGitApply patch st "build.gradle" = none) ∧
    (treeAtGitApply patch st "patch.diff" = some patch) ∧
    (treeAtBuild patch st = st.applyTool patch (treeAtGitApply patch st)) ∧
    (treeAtTest patch tp st =
      st.applyTool tp (writeFile "test_patch.diff" tp (treeAtBuild patch st))) ∧
    (p ≠ "test_patch.diff" →
      writeFile "test_patch.diff" tp (treeAtBuild patch st) p = treeAtBuild patch st p) ∧
    (writeFile "test_patch.diff" tp (treeAtBuild patch st) "test_patch.diff" = some tp) ∧
    (c ++ werrorSnippet ≠ c) := by
  refine ⟨?_, ?_, ?_, ?_, rfl, rfl, ?_, ?_, ?_⟩
  · intro hb hp
    simp only [treeAtGitApply, writeFile, disable_global_werror]
    cases hg : st.checkoutTree "build.gradle" <;> simp [writeFile, hp, hb]
  · intro h
    simp [treeAtGitApply, writeFile, disable_global_werror, h]
  · intro h
    simp [treeAtGitApply, writeFile, disable_global_werror, h]
  · simp [treeAtGitApply, writeFile]
  · intro hp
    simp [writeFile, hp]
  · simp [writeFile]
  · intro h
    have hlen := congrArg String.length h
    rw [String.length_append] at hlen
    have hpos : 0 < werrorSnippet.length := by decide
    omega

/-- Witness for C10 (amended) on a concrete checkout tree: an unrelated
source file is untouched by both pre-apply writes, and the root
`build.gradle` carries the appended snippet when the apply tool runs. -/
theorem werror_injection_frame_amended_witness :
    treeAtGitApply "P" ⟨trickyTree, fun _ fs => fs⟩ "src/Main.java" =
      trickyTree "src/Main.java" ∧
    treeAtGitApply "P" ⟨trickyTree, fun _ fs => fs⟩ "build.gradle" =
      some ("plugins" ++ werrorSnippet) ∧
    writeFile "test_patch.diff" "TP" (treeAtBuild "P" ⟨trickyTree, fun _ fs => fs⟩)
        "src/Main.java" =
      treeAtBuild "P" ⟨trickyTree, fun _ fs => fs⟩ "src/Main.java" := by
  exact ⟨(werror_injection_frame_amended "P" "TP" ⟨trickyTree, fun _ fs => fs⟩
            "src/Main.java" "plugins").1 (by decide) (by decide),
         (werror_injection_frame_amended "P" "TP" ⟨trickyTree, fun _ fs => fs⟩
            "src/Main.java" "plugins").2.1 rfl,
         (werror_injection_frame_amended "P" "TP" ⟨trickyTree, fun _ fs => fs⟩
            "src/Main.java" "plugins").2.2.2.2.2.2.1 (by decide)⟩

end WerrorState

end SWEBench
